import Mathlib

/-!
Verification of the `CatboostPredictionModel` adapter
(`freqtrade/freqai/prediction_models/CatboostPredictionModel.py`).

The adapter performs data shaping only: it derives a forward-return label
series from the `close` column (`make_labels`), orchestrates a training
pipeline of collaborator ("data kitchen") calls ending in a regressor fit
(`train` / `fit`), and runs inference followed by per-label affine
denormalization (`predict`).

Real numbers are modelled by `ℚ` (exact arithmetic); a pandas missing value
(NaN) is modelled by `Option ℚ` with `none` for NaN.  The data-kitchen
collaborator and the catboost library live outside this file's source, so
their behaviour is abstract: each operation is an arbitrary function that may
fail (`Except E`) and may replace the kitchen state and the dataframe it
received, exactly the effects a Python method call can have.  The adapter's
own statements are embedded one by one, threading that state explicitly.
-/

namespace Freqai

/-! ## Series-level pandas operations used by `make_labels`

`dataframe["close"].shift(-period).rolling(period).mean() / dataframe["close"] - 1`
-/

/-- pandas `Series.shift(-period)`: the value at row `i` is the input value at
row `i + period`; rows past the end become missing, so the last `period` rows
of the result are `none`. -/
def shiftNeg (period : ℕ) (xs : List (Option ℚ)) : List (Option ℚ) :=
  (List.range xs.length).map (fun i => xs.getD (i + period) none)

/-- pandas `Series.rolling(period).mean()`: trailing window of width `period`
ending at the current row; `min_periods` defaults to the window size, so the
result is missing when fewer than `period` rows precede (the first
`period - 1` rows) or when any value in the window is missing. -/
def rollingMean (period : ℕ) (xs : List (Option ℚ)) : List (Option ℚ) :=
  (List.range xs.length).map (fun i =>
    if i + 1 < period then none
    else if ((xs.take (i + 1)).drop (i + 1 - period)).all Option.isSome then
      some ((((xs.take (i + 1)).drop (i + 1 - period)).filterMap id).sum / (period : ℚ))
    else none)

/-- Embeds `CatboostPredictionModel.make_labels`: the source computes
`dataframe["close"].shift(-period).rolling(period).mean() / dataframe["close"] - 1`,
stores it as column `"s"` and returns that series.  `period` is
`self.feature_parameters["period"]`, `close` is the dataframe's close column,
and the result is the returned series (the division and the subtraction are
elementwise with missing values propagating). -/
def make_labels (period : ℕ) (close : List ℚ) : List (Option ℚ) :=
  (List.range close.length).map (fun i =>
    ((rollingMean period (shiftNeg period (close.map some))).getD i none).map
      (fun v => v / close.getD i 0 - 1))

/-! ## Denormalization (the affine map applied by `predict`) -/

/-- The per-element denormalization from `predict`:
`((pred_df[label] + 1) * (labels_max - labels_min) / 2) + labels_min`. -/
def denorm (r mn mx : ℚ) : ℚ :=
  (r + 1) * (mx - mn) / 2 + mn

/-- Modelled from the spec: `normalize` is "the inverse affine map" of
`denorm`, sending `[mn, mx]` onto `[-1, 1]`.  It does not appear in the
source file; it is stated only to check the round-trip property claimed by
the spec. -/
def normalize (x mn mx : ℚ) : ℚ :=
  (x - mn) * 2 / (mx - mn) - 1

/-! ## Dataframes (the pandas operations the adapter itself performs) -/

/-- A pandas dataframe, modelled as its ordered list of named numeric
columns. -/
structure DataFrame where
  cols : List (String × List ℚ)
deriving DecidableEq

/-- The ordered list of column names. -/
def DataFrame.columns (df : DataFrame) : List String :=
  df.cols.map Prod.fst

/-- `DataFrame(matrix, columns=names)`: column `j` collects entry `j` of
every row; pandas raises `ValueError` when a row's width differs from the
number of column names, modelled by `none`. -/
def DataFrame.ofMatrix (rows : List (List ℚ)) (names : List String) :
    Option DataFrame :=
  if rows.all (fun r => r.length = names.length) then
    some ⟨names.enum.map (fun jn => (jn.2, rows.map (fun r => r.getD jn.1 0)))⟩
  else none

/-- `df[name] = f(df[name])` for a present column: apply `f` to every column
named `name`, keeping names and order.  (Reading a missing column would raise
`KeyError` in Python; `predict` only updates columns of the dataframe it has
just built with exactly those names, so that case cannot arise there.) -/
def DataFrame.mapCol (df : DataFrame) (name : String) (f : List ℚ → List ℚ) :
    DataFrame :=
  ⟨df.cols.map (fun c => if c.1 = name then (c.1, f c.2) else c)⟩

/-- The data dictionary built by the collaborator, with the slots the adapter
reads or writes. -/
structure DataDict where
  train_features : DataFrame
  train_labels : DataFrame
  train_weights : DataFrame
  test_features : DataFrame
  test_labels : DataFrame
  test_weights : DataFrame
  prediction_features : DataFrame
deriving DecidableEq

/-- `data_dictionary["prediction_features"] = f`. -/
def DataDict.setPredictionFeatures (dd : DataDict) (f : DataFrame) : DataDict :=
  ⟨dd.train_features, dd.train_labels, dd.train_weights,
    dd.test_features, dd.test_labels, dd.test_weights, f⟩

/-- The state of the `FreqaiDataKitchen` collaborator that the adapter reads:
stored attributes, the per-label normalization bounds
(`dk.data["labels_min"]` / `dk.data["labels_max"]`) and the do-predict flag
array. -/
structure Kitchen where
  training_features_list : List String
  label_list : List String
  labels_max : String → ℚ
  labels_min : String → ℚ
  do_predict : List ℤ
  data_dictionary : DataDict

/-- `dk.data_dictionary["prediction_features"] = f`. -/
def Kitchen.setPredictionFeatures (k : Kitchen) (f : DataFrame) : Kitchen :=
  ⟨k.training_features_list, k.label_list, k.labels_max, k.labels_min,
    k.do_predict, k.data_dictionary.setPredictionFeatures f⟩

/-! ## The external collaborator and the regression library (abstract)

The data kitchen's methods and the catboost library are not part of this
source file, so their behaviour is left fully abstract: each operation is an
arbitrary function that may fail with an error of type `E`, may replace the
kitchen state, and — for operations that receive a dataframe a Python callee
could mutate in place — returns that dataframe's new state. -/

/-- One entry per delegated operation the adapter can invoke; the adapter's
methods record these in invocation order. -/
inductive Event where
  | filter_features (training_filter : Bool)
  | make_train_test_datasets
  | fit_labels
  | normalize_data
  | data_cleaning_train
  | find_features
  | normalize_data_from_metadata
  | data_cleaning_predict
  | model_predict
  | fit_model
deriving DecidableEq

/-- The collaborator operations consumed by the adapter.
`filter_features k df features labels training_filter` returns
`(kitchen', df', filtered_features, filtered_labels)` where `df'` is the new
state of the dataframe it received.  `data_cleaning_train` /
`data_cleaning_predict` are the base-interface hooks, which may alter any
kitchen attribute (in particular `do_predict`). -/
structure KitchenOps (E : Type) where
  filter_features : Kitchen → DataFrame → List String → Option (List String) → Bool →
    Except E (Kitchen × DataFrame × DataFrame × DataFrame)
  make_train_test_datasets : Kitchen → DataFrame → DataFrame →
    Except E (Kitchen × DataDict)
  fit_labels : Kitchen → Except E Kitchen
  normalize_data : Kitchen → DataDict → Except E (Kitchen × DataDict)
  normalize_data_from_metadata : Kitchen → DataFrame → Except E (Kitchen × DataFrame)
  find_features : Kitchen → DataFrame → Except E (Kitchen × DataFrame)
  data_cleaning_train : Kitchen → Except E Kitchen
  data_cleaning_predict : Kitchen → DataFrame → Except E Kitchen

/-- A catboost `Pool(data=…, label=…, weight=…)`. -/
structure Pool where
  data : DataFrame
  label : DataFrame
  weight : DataFrame
deriving DecidableEq

/-- The keyword arguments with which `fit`'s source constructs
`CatBoostRegressor`: three fixed settings plus the user-supplied
`model_training_parameters` (hyperparameter values of abstract type `V`). -/
structure RegressorConfig (V : Type) where
  allow_writing_files : Bool
  verbose : ℕ
  early_stopping_rounds : ℕ
  extra : List (String × V)

/-- The catboost library, abstract: `fit cfg train eval` stands for
`CatBoostRegressor(**cfg).fit(X=train, eval_set=eval)`; `predict` is model
inference, one row of label values per input row. -/
structure CatboostLib (E V Model : Type) where
  fit : RegressorConfig V → Pool → Pool → Except E Model
  predict : Model → DataFrame → Except E (List (List ℚ))

/-- The runtime context: collaborator, library, and the Python runtime errors
the adapter's own statements can raise (`TypeError` for a duplicate keyword
argument, `ValueError` from the `DataFrame` constructor). -/
structure Ctx (E V Model : Type) where
  ops : KitchenOps E
  lib : CatboostLib E V Model
  typeError : String → E
  valueError : E

/-- The adapter configuration read by its methods:
`self.feature_parameters["period"]` and `self.model_training_parameters`. -/
structure Adapter (V : Type) where
  period : ℕ
  model_training_parameters : List (String × V)

/-- The keyword names fixed explicitly in the source call
`CatBoostRegressor(allow_writing_files=False, verbose=100,
early_stopping_rounds=400, **self.model_training_parameters)`. -/
def fixedKwargNames : List String :=
  ["allow_writing_files", "verbose", "early_stopping_rounds"]

/-- Python keyword-argument semantics of that constructor call: expanding
`**params` on top of an explicit keyword raises `TypeError` (duplicate
keyword argument, reported here as the offending name); otherwise every
user-supplied pair is passed through alongside the three fixed settings. -/
def mkRegressorKwargs {V : Type} (params : List (String × V)) :
    Except String (RegressorConfig V) :=
  match params.find? (fun kv => fixedKwargNames.contains kv.1) with
  | some kv => Except.error kv.1
  | none => Except.ok ⟨false, 100, 400, params⟩

/-! ## The adapter's methods -/

namespace CatboostPredictionModel

variable {E V Model : Type}

/-- `return_values`: the source body is `return dataframe`. -/
def return_values (dataframe : DataFrame) (dk : Kitchen) : DataFrame :=
  dataframe

/-- `fit`: builds the weighted train and test pools from the data dictionary,
constructs the regressor with the three fixed keyword arguments plus
`self.model_training_parameters`, and fits it on the train pool with the test
pool passed as `eval_set`. -/
def fit (ctx : Ctx E V Model) (ad : Adapter V) (data_dictionary : DataDict) :
    Except E Model :=
  match mkRegressorKwargs ad.model_training_parameters with
  | Except.error key => Except.error (ctx.typeError key)
  | Except.ok cfg =>
      ctx.lib.fit cfg
        ⟨data_dictionary.train_features, data_dictionary.train_labels,
          data_dictionary.train_weights⟩
        ⟨data_dictionary.test_features, data_dictionary.test_labels,
          data_dictionary.test_weights⟩

/-- Prepend an event to a traced result (sequencing of the adapter's
statements: the current statement's event, then whatever the rest of the
method body does). -/
def consEv {α : Type} (ev : Event) (r : List Event × α) : List Event × α :=
  (ev :: r.1, r.2)

/-- `train`, after `self.fit(data_dictionary)` is reached: the final
statement sequence of `train`.  `df1` is the current state of the unfiltered
dataframe, `k5` the current kitchen state, `dd2` the normalized data
dictionary. -/
def trainFinal (ctx : Ctx E V Model) (ad : Adapter V) (df1 : DataFrame)
    (k5 : Kitchen) (dd2 : DataDict) :
    List Event × Except E (Model × Kitchen × DataFrame) :=
  match fit ctx ad dd2 with
  | Except.error e => ([Event.fit_model], Except.error e)
  | Except.ok model => ([Event.fit_model], Except.ok (model, k5, df1))

/-- `train`, from `self.data_cleaning_train(dk)` on. -/
def trainAfterNormalize (ctx : Ctx E V Model) (ad : Adapter V) (df1 : DataFrame)
    (k4 : Kitchen) (dd2 : DataDict) :
    List Event × Except E (Model × Kitchen × DataFrame) :=
  match ctx.ops.data_cleaning_train k4 with
  | Except.error e => ([Event.data_cleaning_train], Except.error e)
  | Except.ok k5 => consEv Event.data_cleaning_train (trainFinal ctx ad df1 k5 dd2)

/-- `train`, from `data_dictionary = dk.normalize_data(data_dictionary)` on. -/
def trainAfterFitLabels (ctx : Ctx E V Model) (ad : Adapter V) (df1 : DataFrame)
    (k3 : Kitchen) (dd : DataDict) :
    List Event × Except E (Model × Kitchen × DataFrame) :=
  match ctx.ops.normalize_data k3 dd with
  | Except.error e => ([Event.normalize_data], Except.error e)
  | Except.ok (k4, dd2) => consEv Event.normalize_data (trainAfterNormalize ctx ad df1 k4 dd2)

/-- `train`, from `dk.fit_labels()` on. -/
def trainAfterSplit (ctx : Ctx E V Model) (ad : Adapter V) (df1 : DataFrame)
    (k2 : Kitchen) (dd : DataDict) :
    List Event × Except E (Model × Kitchen × DataFrame) :=
  match ctx.ops.fit_labels k2 with
  | Except.error e => ([Event.fit_labels], Except.error e)
  | Except.ok k3 => consEv Event.fit_labels (trainAfterFitLabels ctx ad df1 k3 dd)

/-- `train`, from `dk.make_train_test_datasets(...)` on. -/
def trainAfterFilter (ctx : Ctx E V Model) (ad : Adapter V) (df1 : DataFrame)
    (k1 : Kitchen) (ffd lfd : DataFrame) :
    List Event × Except E (Model × Kitchen × DataFrame) :=
  match ctx.ops.make_train_test_datasets k1 ffd lfd with
  | Except.error e => ([Event.make_train_test_datasets], Except.error e)
  | Except.ok (k2, dd) => consEv Event.make_train_test_datasets (trainAfterSplit ctx ad df1 k2 dd)

/-- `train`: the source's statement sequence, threading the kitchen state and
the state of the unfiltered dataframe through each delegated call and
recording the delegated operations in invocation order.  On success it
returns the model fitted on the normalized data dictionary, together with the
final kitchen state and the final state of the unfiltered dataframe. -/
def train (ctx : Ctx E V Model) (ad : Adapter V) (k : Kitchen)
    (unfiltered_dataframe : DataFrame) (pair : String) :
    List Event × Except E (Model × Kitchen × DataFrame) :=
  match ctx.ops.filter_features k unfiltered_dataframe k.training_features_list
      (some k.label_list) true with
  | Except.error e => ([Event.filter_features true], Except.error e)
  | Except.ok (k1, df1, features_filtered, labels_filtered) =>
      consEv (Event.filter_features true)
        (trainAfterFilter ctx ad df1 k1 features_filtered labels_filtered)

/-- The `for label in dk.label_list:` loop of `predict`: each label column is
replaced by its elementwise denormalization
`((pred_df[label] + 1) * (labels_max[label] - labels_min[label]) / 2) + labels_min[label]`. -/
def denormLoop (k : Kitchen) (df : DataFrame) : DataFrame :=
  k.label_list.foldl
    (fun acc label =>
      acc.mapCol label
        (fun xs => xs.map (fun r => denorm r (k.labels_min label) (k.labels_max label))))
    df

/-- `predict`, from `predictions = self.model.predict(...)` on: inference on
the stored `prediction_features`, construction of the prediction dataframe
with `dk.label_list` as its columns, and the denormalization loop.  `df2` is
the current state of the unfiltered dataframe, `k5` the kitchen state after
the data-cleaning hook. -/
def predictInference (ctx : Ctx E V Model) (model : Model) (df2 : DataFrame)
    (k5 : Kitchen) :
    List Event × Except E (DataFrame × List ℤ × Kitchen × DataFrame) :=
  match ctx.lib.predict model k5.data_dictionary.prediction_features with
  | Except.error e => ([Event.model_predict], Except.error e)
  | Except.ok predictions =>
    match DataFrame.ofMatrix predictions k5.label_list with
    | none => ([Event.model_predict], Except.error ctx.valueError)
    | some pred_df =>
        ([Event.model_predict],
          Except.ok (denormLoop k5 pred_df, k5.do_predict, k5, df2))

/-- `predict`, from `self.data_cleaning_predict(dk, filtered_dataframe)` on;
the kitchen already holds the normalized features in its
`prediction_features` slot. -/
def predictAfterNormalize (ctx : Ctx E V Model) (model : Model) (df2 : DataFrame)
    (k3 : Kitchen) (filtered2 : DataFrame) :
    List Event × Except E (DataFrame × List ℤ × Kitchen × DataFrame) :=
  match ctx.ops.data_cleaning_predict (k3.setPredictionFeatures filtered2)
      filtered2 with
  | Except.error e => ([Event.data_cleaning_predict], Except.error e)
  | Except.ok k5 =>
      consEv Event.data_cleaning_predict (predictInference ctx model df2 k5)

/-- `predict`, from
`filtered_dataframe = dk.normalize_data_from_metadata(filtered_dataframe)` on. -/
def predictAfterFilter (ctx : Ctx E V Model) (model : Model) (df2 : DataFrame)
    (k2 : Kitchen) (filtered_dataframe : DataFrame) :
    List Event × Except E (DataFrame × List ℤ × Kitchen × DataFrame) :=
  match ctx.ops.normalize_data_from_metadata k2 filtered_dataframe with
  | Except.error e => ([Event.normalize_data_from_metadata], Except.error e)
  | Except.ok (k3, filtered2) =>
      consEv Event.normalize_data_from_metadata
        (predictAfterNormalize ctx model df2 k3 filtered2)

/-- `predict`, from `filtered_dataframe, _ = dk.filter_features(...)` on. -/
def predictAfterFind (ctx : Ctx E V Model) (model : Model) (k1 : Kitchen)
    (df1 : DataFrame) :
    List Event × Except E (DataFrame × List ℤ × Kitchen × DataFrame) :=
  match ctx.ops.filter_features k1 df1 k1.training_features_list none false with
  | Except.error e => ([Event.filter_features false], Except.error e)
  | Except.ok (k2, df2, filtered_dataframe, _unused) =>
      consEv (Event.filter_features false)
        (predictAfterFilter ctx model df2 k2 filtered_dataframe)

/-- `predict`: the source's statement sequence.  `model` is `self.model`
(stored by the orchestrating interface; calling before training is undefined
behaviour there and is out of scope here).  On success it returns the
denormalized prediction dataframe, the collaborator's `do_predict` array, the
final kitchen state and the final state of the unfiltered dataframe.  The
`first` flag is accepted and ignored, as in the source body. -/
def predict (ctx : Ctx E V Model) (model : Model) (k : Kitchen)
    (unfiltered_dataframe : DataFrame) (first : Bool) :
    List Event × Except E (DataFrame × List ℤ × Kitchen × DataFrame) :=
  match ctx.ops.find_features k unfiltered_dataframe with
  | Except.error e => ([Event.find_features], Except.error e)
  | Except.ok (k1, df1) =>
      consEv Event.find_features (predictAfterFind ctx model k1 df1)

end CatboostPredictionModel

/-! ## A concrete instantiation (used to exhibit actual runs of the adapter) -/

def emptyDF : DataFrame := ⟨[]⟩

/-- A small unfiltered dataframe with a close column and one feature. -/
def dfW : DataFrame := ⟨[("close", [1, 2, 3]), ("f1", [5, 6, 7])]⟩

def ddW : DataDict := ⟨emptyDF, emptyDF, emptyDF, emptyDF, emptyDF, emptyDF, emptyDF⟩

/-- A kitchen with one training feature, one label `"s"` with stored bounds
`[0, 1]`, and do-predict flags `[1, 0, 1]`. -/
def kW : Kitchen := ⟨["f1"], ["s"], fun _ => 1, fun _ => 0, [1, 0, 1], ddW⟩

/-- A collaborator whose operations all succeed and change nothing. -/
def opsOk : KitchenOps String :=
  ⟨fun k df _ _ _ => Except.ok (k, df, df, emptyDF),
    fun k f l => Except.ok (k, ⟨f, l, f, f, l, f, emptyDF⟩),
    fun k => Except.ok k,
    fun k dd => Except.ok (k, dd),
    fun k f => Except.ok (k, f),
    fun k df => Except.ok (k, df),
    fun k => Except.ok k,
    fun k _ => Except.ok k⟩

/-- A regression library that returns the model handle `7` and a single
one-column prediction row. -/
def libW : CatboostLib String ℚ ℕ :=
  ⟨fun _ _ _ => Except.ok 7, fun _ _ => Except.ok [[1 / 2]]⟩

def ctxW : Ctx String ℚ ℕ := ⟨opsOk, libW, fun s => s, "ValueError"⟩

def adW : Adapter ℚ := ⟨10, [("iterations", 100)]⟩

/-- Like `ctxW` but `filter_features` fails. -/
def ctxErrFilter : Ctx String ℚ ℕ :=
  ⟨⟨fun _ _ _ _ _ => Except.error "boom",
      opsOk.make_train_test_datasets, opsOk.fit_labels, opsOk.normalize_data,
      opsOk.normalize_data_from_metadata, opsOk.find_features,
      opsOk.data_cleaning_train, opsOk.data_cleaning_predict⟩,
    libW, fun s => s, "ValueError"⟩

/-- Like `ctxW` but `find_features` fails. -/
def ctxErrFind : Ctx String ℚ ℕ :=
  ⟨⟨opsOk.filter_features, opsOk.make_train_test_datasets, opsOk.fit_labels,
      opsOk.normalize_data, opsOk.normalize_data_from_metadata,
      fun _ _ => Except.error "nofind",
      opsOk.data_cleaning_train, opsOk.data_cleaning_predict⟩,
    libW, fun s => s, "ValueError"⟩

/-- Like `ctxW` but the regression library's fit fails. -/
def ctxErrFit : Ctx String ℚ ℕ :=
  ⟨opsOk, ⟨fun _ _ _ => Except.error "fitfail", fun _ _ => Except.ok [[1 / 2]]⟩,
    fun s => s, "ValueError"⟩

/-! ## Theorems -/

/-! ### Characterization of `make_labels` -/

theorem length_shiftNeg (p : ℕ) (xs : List (Option ℚ)) :
    (shiftNeg p xs).length = xs.length := by
  simp [shiftNeg]

theorem getElem?_shiftNeg (p : ℕ) (xs : List (Option ℚ)) (i : ℕ) (hi : i < xs.length) :
    (shiftNeg p xs)[i]? = some (xs.getD (i + p) none) := by
  unfold shiftNeg
  rw [List.getElem?_map, List.getElem?_range hi]
  rfl

theorem getElem?_rollingMean (p : ℕ) (xs : List (Option ℚ)) (i : ℕ) (hi : i < xs.length) :
    (rollingMean p xs)[i]? = some (
      if i + 1 < p then none
      else if ((xs.take (i + 1)).drop (i + 1 - p)).all Option.isSome then
        some ((((xs.take (i + 1)).drop (i + 1 - p)).filterMap id).sum / (p : ℚ))
      else none) := by
  unfold rollingMean
  rw [List.getElem?_map, List.getElem?_range hi]
  rfl

/-- In the fully-populated case, the rolling window over the shifted series is
exactly the slice `close[i+1 .. i+p]` of the close column. -/
theorem window_eq_map_some (p : ℕ) (close : List ℚ) (i : ℕ)
    (hp : p ≤ i + 1) (hin : i + p < close.length) :
    ((shiftNeg p (close.map some)).take (i + 1)).drop (i + 1 - p) =
      ((close.drop (i + 1)).take p).map some := by
  apply List.ext_getElem?
  intro j
  by_cases hj : j < p
  · have h1 : i + 1 - p + j < i + 1 := by omega
    have h2 : i + 1 - p + j < (close.map some).length := by
      rw [List.length_map]; omega
    have h4 : i + 1 + j < close.length := by omega
    have lhs_eq :
        (((shiftNeg p (close.map some)).take (i + 1)).drop (i + 1 - p))[j]? =
          some (some (close.getD (i + 1 + j) 0)) := by
      rw [List.getElem?_drop, List.getElem?_take_of_lt h1,
        getElem?_shiftNeg p (close.map some) (i + 1 - p + j) h2]
      have h3 : i + 1 - p + j + p = i + 1 + j := by omega
      rw [h3]
      simp [List.getElem?_eq_getElem h4]
    have rhs_eq :
        ((((close.drop (i + 1)).take p).map some))[j]? =
          some (some (close.getD (i + 1 + j) 0)) := by
      rw [List.getElem?_map, List.getElem?_take_of_lt hj, List.getElem?_drop]
      simp [List.getElem?_eq_getElem h4]
    rw [lhs_eq, rhs_eq]
  · have hL :
        (((shiftNeg p (close.map some)).take (i + 1)).drop (i + 1 - p)).length = p := by
      rw [List.length_drop, List.length_take, length_shiftNeg, List.length_map]
      omega
    have hR : ((((close.drop (i + 1)).take p).map some)).length = p := by
      rw [List.length_map, List.length_take, List.length_drop]
      omega
    rw [List.getElem?_eq_none (by rw [hL]; omega),
      List.getElem?_eq_none (by rw [hR]; omega)]

/-- C1 (amended): for a positive period `P` and any row `i` of the input, the
series returned by `make_labels` has, at row `i`, the value
`mean(close[i+1 .. i+P]) / close[i] - 1` whenever `P - 1 ≤ i` and
`i + P < n` (with `n` the number of rows), and is missing otherwise — that
is, it is missing exactly on the first `P - 1` rows and the last `P` rows,
not only on the last `P - 1` rows as the claim states. -/
theorem make_labels_characterization (period : ℕ) (close : List ℚ) (i : ℕ)
    (hP : 0 < period) (hi : i < close.length) :
    (make_labels period close)[i]? =
      some (if period - 1 ≤ i ∧ i + period < close.length
        then some ((((close.drop (i + 1)).take period).sum / (period : ℚ)) /
          close.getD i 0 - 1)
        else none) := by
  unfold make_labels
  rw [List.getElem?_map, List.getElem?_range hi]
  simp only [Option.map_some']
  congr 1
  have hS : i < (shiftNeg period (close.map some)).length := by
    rw [length_shiftNeg, List.length_map]; exact hi
  rw [List.getD_eq_getElem?_getD (rollingMean period (shiftNeg period (close.map some))) i none,
    getElem?_rollingMean period (shiftNeg period (close.map some)) i hS]
  simp only [Option.getD_some]
  by_cases hcase : i + 1 < period
  · rw [if_pos hcase, if_neg (by omega : ¬ (period - 1 ≤ i ∧ i + period < close.length))]
    rfl
  · rw [if_neg hcase]
    by_cases hend : i + period < close.length
    · have hp1 : period ≤ i + 1 := by omega
      rw [window_eq_map_some period close i hp1 hend]
      have hallpos :
          ((((close.drop (i + 1)).take period).map some).all Option.isSome) = true := by
        rw [List.all_eq_true]
        intro x hx
        rw [List.mem_map] at hx
        obtain ⟨y, hy, rfl⟩ := hx
        rfl
      rw [if_pos hallpos, List.filterMap_map, Function.id_comp, List.filterMap_some]
      rw [if_pos ⟨by omega, hend⟩]
      rfl
    · have hp1 : period ≤ i + 1 := by omega
      have hidx :
          (((shiftNeg period (close.map some)).take (i + 1)).drop
            (i + 1 - period))[period - 1]? = some none := by
        have h1 : i + 1 - period + (period - 1) < i + 1 := by omega
        rw [List.getElem?_drop, List.getElem?_take_of_lt h1]
        have heq : i + 1 - period + (period - 1) = i := by omega
        rw [heq]
        have h2 : i < (close.map some).length := by rw [List.length_map]; exact hi
        rw [getElem?_shiftNeg period (close.map some) i h2]
        have h3 : (close.map some).getD (i + period) none = none := by
          rw [List.getD_eq_getElem?_getD,
            List.getElem?_eq_none (by rw [List.length_map]; omega)]
          rfl
        rw [h3]
      have hall :
          ¬ ((((shiftNeg period (close.map some)).take (i + 1)).drop
            (i + 1 - period)).all Option.isSome = true) := by
        intro hcon
        rw [List.all_eq_true] at hcon
        have := hcon none (List.getElem?_mem hidx)
        simp at this
      rw [if_neg hall,
        if_neg (by omega : ¬ (period - 1 ≤ i ∧ i + period < close.length))]
      rfl

/-- Witness for C1's amended theorem at `P = 2`, `close = [1,2,3,4,5]`,
`i = 1`: the value is `mean(close[2..3]) / close[1] - 1 = (7/2)/2 - 1 = 3/4`. -/
theorem make_labels_characterization_witness :
    (0 : ℕ) < 2 ∧ (1 : ℕ) < 5 ∧
      (make_labels 2 [1, 2, 3, 4, 5])[1]? = some (some ((3 : ℚ) / 4)) := by
  refine ⟨by decide, by decide, ?_⟩
  rw [make_labels_characterization 2 [1, 2, 3, 4, 5] 1 (by decide) (by decide)]
  norm_num

/-- C1 counterexample: with `P = 2` and a 4-row close column `[1,1,1,1]`,
row 0 is not among the last `P - 1 = 1` rows, and the claimed formula there
evaluates to `mean(close[1..2]) / close[0] - 1 = 0`; but `make_labels`
returns a missing value at row 0 (the trailing rolling window of width 2 is
incomplete at row 0), so the claim's "undefined exactly for the last P-1
rows" is false. -/
theorem make_labels_cex :
    (make_labels 2 [1, 1, 1, 1])[0]? = some none ∧
      (make_labels 2 [1, 1, 1, 1])[0]? ≠
        some (some (((1 : ℚ) + 1) / 2 / 1 - 1)) ∧
      (0 : ℕ) < 4 - (2 - 1) := by
  decide

/-- C2: the denormalization applied by `predict` to each label column maps
`-1` to the stored minimum, `1` to the stored maximum and `0` to the
midpoint, and it inverts the normalizing affine map on every point of
`[mn, mx]`. -/
theorem denorm_affine_spec (mn mx : ℚ) :
    denorm (-1) mn mx = mn ∧ denorm 1 mn mx = mx ∧
      denorm 0 mn mx = (mn + mx) / 2 ∧
      ∀ x : ℚ, mn ≤ x → x ≤ mx → denorm (normalize x mn mx) mn mx = x := by
  refine ⟨by unfold denorm; ring, by unfold denorm; ring, by unfold denorm; ring, ?_⟩
  intro x h1 h2
  by_cases hd : mx - mn = 0
  · have hmx : mx = mn := by linarith
    subst hmx
    have hx : x = mx := le_antisymm h2 h1
    subst hx
    norm_num [denorm, normalize]
  · unfold denorm normalize
    field_simp

/-- Witness for C2 with bounds `(2, 10)` and interior point `x = 4`. -/
theorem denorm_affine_spec_witness :
    denorm (-1) 2 10 = 2 ∧ denorm 1 2 10 = 10 ∧
      denorm 0 2 10 = (2 + 10) / 2 ∧ denorm (normalize 4 2 10) 2 10 = 4 := by
  have h := denorm_affine_spec 2 10
  exact ⟨h.1, h.2.1, h.2.2.1, h.2.2.2 4 (by norm_num) (by norm_num)⟩

namespace CatboostPredictionModel

variable {E V Model : Type}

/-! ### Step equations: how each method body unfolds, one statement at a
time, depending on the outcome of the delegated call it performs. -/

theorem train_filter_err (ctx : Ctx E V Model) (ad : Adapter V) (k : Kitchen)
    (df : DataFrame) (pair : String) (e : E)
    (h : ctx.ops.filter_features k df k.training_features_list
      (some k.label_list) true = Except.error e) :
    train ctx ad k df pair = ([Event.filter_features true], Except.error e) := by
  unfold train; rw [h]

theorem train_filter_ok (ctx : Ctx E V Model) (ad : Adapter V) (k : Kitchen)
    (df : DataFrame) (pair : String) (k1 : Kitchen) (df1 ffd lfd : DataFrame)
    (h : ctx.ops.filter_features k df k.training_features_list
      (some k.label_list) true = Except.ok (k1, df1, ffd, lfd)) :
    train ctx ad k df pair =
      consEv (Event.filter_features true) (trainAfterFilter ctx ad df1 k1 ffd lfd) := by
  unfold train; rw [h]

theorem trainAfterFilter_split_err (ctx : Ctx E V Model) (ad : Adapter V)
    (df1 : DataFrame) (k1 : Kitchen) (ffd lfd : DataFrame) (e : E)
    (h : ctx.ops.make_train_test_datasets k1 ffd lfd = Except.error e) :
    trainAfterFilter ctx ad df1 k1 ffd lfd =
      ([Event.make_train_test_datasets], Except.error e) := by
  unfold trainAfterFilter; rw [h]

theorem trainAfterFilter_split_ok (ctx : Ctx E V Model) (ad : Adapter V)
    (df1 : DataFrame) (k1 : Kitchen) (ffd lfd : DataFrame) (k2 : Kitchen) (dd : DataDict)
    (h : ctx.ops.make_train_test_datasets k1 ffd lfd = Except.ok (k2, dd)) :
    trainAfterFilter ctx ad df1 k1 ffd lfd =
      consEv Event.make_train_test_datasets (trainAfterSplit ctx ad df1 k2 dd) := by
  unfold trainAfterFilter; rw [h]

theorem trainAfterSplit_fitLabels_err (ctx : Ctx E V Model) (ad : Adapter V)
    (df1 : DataFrame) (k2 : Kitchen) (dd : DataDict) (e : E)
    (h : ctx.ops.fit_labels k2 = Except.error e) :
    trainAfterSplit ctx ad df1 k2 dd = ([Event.fit_labels], Except.error e) := by
  unfold trainAfterSplit; rw [h]

theorem trainAfterSplit_fitLabels_ok (ctx : Ctx E V Model) (ad : Adapter V)
    (df1 : DataFrame) (k2 : Kitchen) (dd : DataDict) (k3 : Kitchen)
    (h : ctx.ops.fit_labels k2 = Except.ok k3) :
    trainAfterSplit ctx ad df1 k2 dd =
      consEv Event.fit_labels (trainAfterFitLabels ctx ad df1 k3 dd) := by
  unfold trainAfterSplit; rw [h]

theorem trainAfterFitLabels_normalize_err (ctx : Ctx E V Model) (ad : Adapter V)
    (df1 : DataFrame) (k3 : Kitchen) (dd : DataDict) (e : E)
    (h : ctx.ops.normalize_data k3 dd = Except.error e) :
    trainAfterFitLabels ctx ad df1 k3 dd = ([Event.normalize_data], Except.error e) := by
  unfold trainAfterFitLabels; rw [h]

theorem trainAfterFitLabels_normalize_ok (ctx : Ctx E V Model) (ad : Adapter V)
    (df1 : DataFrame) (k3 : Kitchen) (dd : DataDict) (k4 : Kitchen) (dd2 : DataDict)
    (h : ctx.ops.normalize_data k3 dd = Except.ok (k4, dd2)) :
    trainAfterFitLabels ctx ad df1 k3 dd =
      consEv Event.normalize_data (trainAfterNormalize ctx ad df1 k4 dd2) := by
  unfold trainAfterFitLabels; rw [h]

theorem trainAfterNormalize_clean_err (ctx : Ctx E V Model) (ad : Adapter V)
    (df1 : DataFrame) (k4 : Kitchen) (dd2 : DataDict) (e : E)
    (h : ctx.ops.data_cleaning_train k4 = Except.error e) :
    trainAfterNormalize ctx ad df1 k4 dd2 =
      ([Event.data_cleaning_train], Except.error e) := by
  unfold trainAfterNormalize; rw [h]

theorem trainAfterNormalize_clean_ok (ctx : Ctx E V Model) (ad : Adapter V)
    (df1 : DataFrame) (k4 : Kitchen) (dd2 : DataDict) (k5 : Kitchen)
    (h : ctx.ops.data_cleaning_train k4 = Except.ok k5) :
    trainAfterNormalize ctx ad df1 k4 dd2 =
      consEv Event.data_cleaning_train (trainFinal ctx ad df1 k5 dd2) := by
  unfold trainAfterNormalize; rw [h]

theorem trainFinal_fit_err (ctx : Ctx E V Model) (ad : Adapter V)
    (df1 : DataFrame) (k5 : Kitchen) (dd2 : DataDict) (e : E)
    (h : fit ctx ad dd2 = Except.error e) :
    trainFinal ctx ad df1 k5 dd2 = ([Event.fit_model], Except.error e) := by
  unfold trainFinal; rw [h]

theorem trainFinal_fit_ok (ctx : Ctx E V Model) (ad : Adapter V)
    (df1 : DataFrame) (k5 : Kitchen) (dd2 : DataDict) (m : Model)
    (h : fit ctx ad dd2 = Except.ok m) :
    trainFinal ctx ad df1 k5 dd2 =
      ([Event.fit_model], Except.ok (m, k5, df1)) := by
  unfold trainFinal; rw [h]

theorem predict_find_err (ctx : Ctx E V Model) (model : Model) (k : Kitchen)
    (df : DataFrame) (first : Bool) (e : E)
    (h : ctx.ops.find_features k df = Except.error e) :
    predict ctx model k df first = ([Event.find_features], Except.error e) := by
  unfold predict; rw [h]

theorem predict_find_ok (ctx : Ctx E V Model) (model : Model) (k : Kitchen)
    (df : DataFrame) (first : Bool) (k1 : Kitchen) (df1 : DataFrame)
    (h : ctx.ops.find_features k df = Except.ok (k1, df1)) :
    predict ctx model k df first =
      consEv Event.find_features (predictAfterFind ctx model k1 df1) := by
  unfold predict; rw [h]

theorem predictAfterFind_filter_err (ctx : Ctx E V Model) (model : Model)
    (k1 : Kitchen) (df1 : DataFrame) (e : E)
    (h : ctx.ops.filter_features k1 df1 k1.training_features_list none false =
      Except.error e) :
    predictAfterFind ctx model k1 df1 =
      ([Event.filter_features false], Except.error e) := by
  unfold predictAfterFind; rw [h]

theorem predictAfterFind_filter_ok (ctx : Ctx E V Model) (model : Model)
    (k1 : Kitchen) (df1 : DataFrame) (k2 : Kitchen) (df2 fd ld : DataFrame)
    (h : ctx.ops.filter_features k1 df1 k1.training_features_list none false =
      Except.ok (k2, df2, fd, ld)) :
    predictAfterFind ctx model k1 df1 =
      consEv (Event.filter_features false) (predictAfterFilter ctx model df2 k2 fd) := by
  unfold predictAfterFind; rw [h]

theorem predictAfterFilter_normMeta_err (ctx : Ctx E V Model) (model : Model)
    (df2 : DataFrame) (k2 : Kitchen) (fd : DataFrame) (e : E)
    (h : ctx.ops.normalize_data_from_metadata k2 fd = Except.error e) :
    predictAfterFilter ctx model df2 k2 fd =
      ([Event.normalize_data_from_metadata], Except.error e) := by
  unfold predictAfterFilter; rw [h]

theorem predictAfterFilter_normMeta_ok (ctx : Ctx E V Model) (model : Model)
    (df2 : DataFrame) (k2 : Kitchen) (fd : DataFrame) (k3 : Kitchen) (fd2 : DataFrame)
    (h : ctx.ops.normalize_data_from_metadata k2 fd = Except.ok (k3, fd2)) :
    predictAfterFilter ctx model df2 k2 fd =
      consEv Event.normalize_data_from_metadata
        (predictAfterNormalize ctx model df2 k3 fd2) := by
  unfold predictAfterFilter; rw [h]

theorem predictAfterNormalize_clean_err (ctx : Ctx E V Model) (model : Model)
    (df2 : DataFrame) (k3 : Kitchen) (fd2 : DataFrame) (e : E)
    (h : ctx.ops.data_cleaning_predict (k3.setPredictionFeatures fd2) fd2 =
      Except.error e) :
    predictAfterNormalize ctx model df2 k3 fd2 =
      ([Event.data_cleaning_predict], Except.error e) := by
  unfold predictAfterNormalize; rw [h]

theorem predictAfterNormalize_clean_ok (ctx : Ctx E V Model) (model : Model)
    (df2 : DataFrame) (k3 : Kitchen) (fd2 : DataFrame) (k5 : Kitchen)
    (h : ctx.ops.data_cleaning_predict (k3.setPredictionFeatures fd2) fd2 =
      Except.ok k5) :
    predictAfterNormalize ctx model df2 k3 fd2 =
      consEv Event.data_cleaning_predict (predictInference ctx model df2 k5) := by
  unfold predictAfterNormalize; rw [h]

theorem predictInference_lib_err (ctx : Ctx E V Model) (model : Model)
    (df2 : DataFrame) (k5 : Kitchen) (e : E)
    (h : ctx.lib.predict model k5.data_dictionary.prediction_features =
      Except.error e) :
    predictInference ctx model df2 k5 = ([Event.model_predict], Except.error e) := by
  unfold predictInference; rw [h]

/-! ### Success inversions: what must have happened when a method returned
normally. -/

theorem consEv_ok_inv {α β : Type} (ev : Event) (s : List Event × Except β α)
    (tr : List Event) (r : α) (h : consEv ev s = (tr, Except.ok r)) :
    s = (s.1, Except.ok r) ∧ tr = ev :: s.1 := by
  unfold consEv at h
  have h1 := congrArg Prod.fst h
  have h2 := congrArg Prod.snd h
  dsimp at h1 h2
  constructor
  · rw [← h2]
  · exact h1.symm

theorem predictInference_ok_inv (ctx : Ctx E V Model) (model : Model)
    (df2 : DataFrame) (k5 : Kitchen) (tr : List Event)
    (r : DataFrame × List ℤ × Kitchen × DataFrame)
    (h : predictInference ctx model df2 k5 = (tr, Except.ok r)) :
    ∃ preds pdf,
      ctx.lib.predict model k5.data_dictionary.prediction_features =
        Except.ok preds ∧
      DataFrame.ofMatrix preds k5.label_list = some pdf ∧
      tr = [Event.model_predict] ∧
      r = (denormLoop k5 pdf, k5.do_predict, k5, df2) := by
  cases hp : ctx.lib.predict model k5.data_dictionary.prediction_features with
  | error e =>
      unfold predictInference at h
      rw [hp] at h
      simp at h
  | ok preds =>
      unfold predictInference at h
      rw [hp] at h
      dsimp only at h
      cases hm : DataFrame.ofMatrix preds k5.label_list with
      | none =>
          rw [hm] at h
          simp at h
      | some pdf =>
          rw [hm] at h
          dsimp only at h
          have h1 := congrArg Prod.fst h
          have h2 := congrArg Prod.snd h
          dsimp at h1 h2
          injection h2 with h2
          exact ⟨preds, pdf, rfl, hm, h1.symm, h2.symm⟩

theorem predictAfterNormalize_ok_inv (ctx : Ctx E V Model) (model : Model)
    (df2 : DataFrame) (k3 : Kitchen) (fd2 : DataFrame) (tr : List Event)
    (r : DataFrame × List ℤ × Kitchen × DataFrame)
    (h : predictAfterNormalize ctx model df2 k3 fd2 = (tr, Except.ok r)) :
    ∃ k5 preds pdf,
      ctx.ops.data_cleaning_predict (k3.setPredictionFeatures fd2) fd2 =
        Except.ok k5 ∧
      ctx.lib.predict model k5.data_dictionary.prediction_features =
        Except.ok preds ∧
      DataFrame.ofMatrix preds k5.label_list = some pdf ∧
      tr = [Event.data_cleaning_predict, Event.model_predict] ∧
      r = (denormLoop k5 pdf, k5.do_predict, k5, df2) := by
  cases hc : ctx.ops.data_cleaning_predict (k3.setPredictionFeatures fd2) fd2 with
  | error e =>
      unfold predictAfterNormalize at h
      rw [hc] at h
      simp at h
  | ok k5 =>
      rw [predictAfterNormalize_clean_ok ctx model df2 k3 fd2 k5 hc] at h
      obtain ⟨hs, htr⟩ := consEv_ok_inv _ _ _ _ h
      obtain ⟨preds, pdf, hp, hm, htr2, hr⟩ :=
        predictInference_ok_inv ctx model df2 k5 _ r hs
      refine ⟨k5, preds, pdf, rfl, hp, hm, ?_, hr⟩
      rw [htr, htr2]

theorem predictAfterFilter_ok_inv (ctx : Ctx E V Model) (model : Model)
    (df2 : DataFrame) (k2 : Kitchen) (fd : DataFrame) (tr : List Event)
    (r : DataFrame × List ℤ × Kitchen × DataFrame)
    (h : predictAfterFilter ctx model df2 k2 fd = (tr, Except.ok r)) :
    ∃ k3 fd2 k5 preds pdf,
      ctx.ops.normalize_data_from_metadata k2 fd = Except.ok (k3, fd2) ∧
      ctx.ops.data_cleaning_predict (k3.setPredictionFeatures fd2) fd2 =
        Except.ok k5 ∧
      ctx.lib.predict model k5.data_dictionary.prediction_features =
        Except.ok preds ∧
      DataFrame.ofMatrix preds k5.label_list = some pdf ∧
      tr = [Event.normalize_data_from_metadata, Event.data_cleaning_predict,
        Event.model_predict] ∧
      r = (denormLoop k5 pdf, k5.do_predict, k5, df2) := by
  cases hn : ctx.ops.normalize_data_from_metadata k2 fd with
  | error e =>
      unfold predictAfterFilter at h
      rw [hn] at h
      simp at h
  | ok x =>
      obtain ⟨k3, fd2⟩ := x
      rw [predictAfterFilter_normMeta_ok ctx model df2 k2 fd k3 fd2 hn] at h
      obtain ⟨hs, htr⟩ := consEv_ok_inv _ _ _ _ h
      obtain ⟨k5, preds, pdf, hc, hp, hm, htr2, hr⟩ :=
        predictAfterNormalize_ok_inv ctx model df2 k3 fd2 _ r hs
      refine ⟨k3, fd2, k5, preds, pdf, rfl, hc, hp, hm, ?_, hr⟩
      rw [htr, htr2]

theorem predictAfterFind_ok_inv (ctx : Ctx E V Model) (model : Model)
    (k1 : Kitchen) (df1 : DataFrame) (tr : List Event)
    (r : DataFrame × List ℤ × Kitchen × DataFrame)
    (h : predictAfterFind ctx model k1 df1 = (tr, Except.ok r)) :
    ∃ k2 df2 fd ld k3 fd2 k5 preds pdf,
      ctx.ops.filter_features k1 df1 k1.training_features_list none false =
        Except.ok (k2, df2, fd, ld) ∧
      ctx.ops.normalize_data_from_metadata k2 fd = Except.ok (k3, fd2) ∧
      ctx.ops.data_cleaning_predict (k3.setPredictionFeatures fd2) fd2 =
        Except.ok k5 ∧
      ctx.lib.predict model k5.data_dictionary.prediction_features =
        Except.ok preds ∧
      DataFrame.ofMatrix preds k5.label_list = some pdf ∧
      tr = [Event.filter_features false, Event.normalize_data_from_metadata,
        Event.data_cleaning_predict, Event.model_predict] ∧
      r = (denormLoop k5 pdf, k5.do_predict, k5, df2) := by
  cases hf : ctx.ops.filter_features k1 df1 k1.training_features_list none false with
  | error e =>
      unfold predictAfterFind at h
      rw [hf] at h
      simp at h
  | ok x =>
      obtain ⟨k2, df2, fd, ld⟩ := x
      rw [predictAfterFind_filter_ok ctx model k1 df1 k2 df2 fd ld hf] at h
      obtain ⟨hs, htr⟩ := consEv_ok_inv _ _ _ _ h
      obtain ⟨k3, fd2, k5, preds, pdf, hn, hc, hp, hm, htr2, hr⟩ :=
        predictAfterFilter_ok_inv ctx model df2 k2 fd _ r hs
      refine ⟨k2, df2, fd, ld, k3, fd2, k5, preds, pdf, rfl, hn, hc, hp, hm, ?_, hr⟩
      rw [htr, htr2]

theorem predict_ok_inv (ctx : Ctx E V Model) (model : Model) (k : Kitchen)
    (df : DataFrame) (first : Bool) (tr : List Event)
    (r : DataFrame × List ℤ × Kitchen × DataFrame)
    (h : predict ctx model k df first = (tr, Except.ok r)) :
    ∃ k1 df1 k2 df2 fd ld k3 fd2 k5 preds pdf,
      ctx.ops.find_features k df = Except.ok (k1, df1) ∧
      ctx.ops.filter_features k1 df1 k1.training_features_list none false =
        Except.ok (k2, df2, fd, ld) ∧
      ctx.ops.normalize_data_from_metadata k2 fd = Except.ok (k3, fd2) ∧
      ctx.ops.data_cleaning_predict (k3.setPredictionFeatures fd2) fd2 =
        Except.ok k5 ∧
      ctx.lib.predict model k5.data_dictionary.prediction_features =
        Except.ok preds ∧
      DataFrame.ofMatrix preds k5.label_list = some pdf ∧
      tr = [Event.find_features, Event.filter_features false,
        Event.normalize_data_from_metadata, Event.data_cleaning_predict,
        Event.model_predict] ∧
      r = (denormLoop k5 pdf, k5.do_predict, k5, df2) := by
  cases hd : ctx.ops.find_features k df with
  | error e =>
      unfold predict at h
      rw [hd] at h
      simp at h
  | ok x =>
      obtain ⟨k1, df1⟩ := x
      rw [predict_find_ok ctx model k df first k1 df1 hd] at h
      obtain ⟨hs, htr⟩ := consEv_ok_inv _ _ _ _ h
      obtain ⟨k2, df2, fd, ld, k3, fd2, k5, preds, pdf, hf, hn, hc, hp, hm, htr2, hr⟩ :=
        predictAfterFind_ok_inv ctx model k1 df1 _ r hs
      refine ⟨k1, df1, k2, df2, fd, ld, k3, fd2, k5, preds, pdf, rfl, hf, hn, hc,
        hp, hm, ?_, hr⟩
      rw [htr, htr2]

theorem trainFinal_ok_inv (ctx : Ctx E V Model) (ad : Adapter V)
    (df1 : DataFrame) (k5 : Kitchen) (dd2 : DataDict) (tr : List Event)
    (r : Model × Kitchen × DataFrame)
    (h : trainFinal ctx ad df1 k5 dd2 = (tr, Except.ok r)) :
    ∃ m, fit ctx ad dd2 = Except.ok m ∧ tr = [Event.fit_model] ∧
      r = (m, k5, df1) := by
  cases hf : fit ctx ad dd2 with
  | error e =>
      unfold trainFinal at h
      rw [hf] at h
      simp at h
  | ok m =>
      rw [trainFinal_fit_ok ctx ad df1 k5 dd2 m hf] at h
      have h1 := congrArg Prod.fst h
      have h2 := congrArg Prod.snd h
      dsimp at h1 h2
      injection h2 with h2
      exact ⟨m, rfl, h1.symm, h2.symm⟩

theorem train_ok_inv (ctx : Ctx E V Model) (ad : Adapter V) (k : Kitchen)
    (df : DataFrame) (pair : String) (tr : List Event)
    (r : Model × Kitchen × DataFrame)
    (h : train ctx ad k df pair = (tr, Except.ok r)) :
    ∃ k1 df1 ffd lfd k2 dd k3 k4 dd2 k5 m,
      ctx.ops.filter_features k df k.training_features_list
        (some k.label_list) true = Except.ok (k1, df1, ffd, lfd) ∧
      ctx.ops.make_train_test_datasets k1 ffd lfd = Except.ok (k2, dd) ∧
      ctx.ops.fit_labels k2 = Except.ok k3 ∧
      ctx.ops.normalize_data k3 dd = Except.ok (k4, dd2) ∧
      ctx.ops.data_cleaning_train k4 = Except.ok k5 ∧
      fit ctx ad dd2 = Except.ok m ∧
      tr = [Event.filter_features true, Event.make_train_test_datasets,
        Event.fit_labels, Event.normalize_data, Event.data_cleaning_train,
        Event.fit_model] ∧
      r = (m, k5, df1) := by
  cases h1 : ctx.ops.filter_features k df k.training_features_list
      (some k.label_list) true with
  | error e =>
      unfold train at h
      rw [h1] at h
      simp at h
  | ok x =>
      obtain ⟨k1, df1, ffd, lfd⟩ := x
      rw [train_filter_ok ctx ad k df pair k1 df1 ffd lfd h1] at h
      obtain ⟨hs, htr⟩ := consEv_ok_inv _ _ _ _ h
      cases h2 : ctx.ops.make_train_test_datasets k1 ffd lfd with
      | error e =>
          unfold trainAfterFilter at hs
          rw [h2] at hs
          simp at hs
      | ok x =>
          obtain ⟨k2, dd⟩ := x
          rw [trainAfterFilter_split_ok ctx ad df1 k1 ffd lfd k2 dd h2] at hs
          obtain ⟨hs2, htr2⟩ := consEv_ok_inv _ _ _ _ hs
          cases h3 : ctx.ops.fit_labels k2 with
          | error e =>
              unfold trainAfterSplit at hs2
              rw [h3] at hs2
              simp at hs2
          | ok k3 =>
              rw [trainAfterSplit_fitLabels_ok ctx ad df1 k2 dd k3 h3] at hs2
              obtain ⟨hs3, htr3⟩ := consEv_ok_inv _ _ _ _ hs2
              cases h4 : ctx.ops.normalize_data k3 dd with
              | error e =>
                  unfold trainAfterFitLabels at hs3
                  rw [h4] at hs3
                  simp at hs3
              | ok x =>
                  obtain ⟨k4, dd2⟩ := x
                  rw [trainAfterFitLabels_normalize_ok ctx ad df1 k3 dd k4 dd2 h4] at hs3
                  obtain ⟨hs4, htr4⟩ := consEv_ok_inv _ _ _ _ hs3
                  cases h5 : ctx.ops.data_cleaning_train k4 with
                  | error e =>
                      unfold trainAfterNormalize at hs4
                      rw [h5] at hs4
                      simp at hs4
                  | ok k5 =>
                      rw [trainAfterNormalize_clean_ok ctx ad df1 k4 dd2 k5 h5] at hs4
                      obtain ⟨hs5, htr5⟩ := consEv_ok_inv _ _ _ _ hs4
                      obtain ⟨m, hm, htr6, hr⟩ :=
                        trainFinal_ok_inv ctx ad df1 k5 dd2 _ r hs5
                      refine ⟨k1, df1, ffd, lfd, k2, dd, k3, k4, dd2, k5, m,
                        rfl, h2, h3, h4, h5, hm, ?_, hr⟩
                      rw [htr, trainAfterFilter_split_ok ctx ad df1 k1 ffd lfd k2 dd h2,
                        trainAfterSplit_fitLabels_ok ctx ad df1 k2 dd k3 h3,
                        trainAfterFitLabels_normalize_ok ctx ad df1 k3 dd k4 dd2 h4,
                        trainAfterNormalize_clean_ok ctx ad df1 k4 dd2 k5 h5,
                        trainFinal_fit_ok ctx ad df1 k5 dd2 m hm]
                      simp [consEv]

/-! ### Column bookkeeping -/

theorem map_fst_if (name : String) (f : List ℚ → List ℚ)
    (l : List (String × List ℚ)) :
    (l.map (fun c => if c.1 = name then (c.1, f c.2) else c)).map Prod.fst =
      l.map Prod.fst := by
  induction l with
  | nil => rfl
  | cons c cs ih =>
      dsimp
      rw [ih]
      congr 1
      split <;> rfl

theorem columns_mapCol (df : DataFrame) (name : String) (f : List ℚ → List ℚ) :
    (df.mapCol name f).columns = df.columns := by
  unfold DataFrame.mapCol DataFrame.columns
  exact map_fst_if name f df.cols

theorem denormLoop_columns (k : Kitchen) (df : DataFrame) :
    (denormLoop k df).columns = df.columns := by
  unfold denormLoop
  generalize k.label_list = ls
  induction ls generalizing df with
  | nil => rfl
  | cons l ls ih =>
      rw [List.foldl_cons, ih, columns_mapCol]

theorem columns_ofMatrix (rows : List (List ℚ)) (names : List String)
    (df : DataFrame) (h : DataFrame.ofMatrix rows names = some df) :
    df.columns = names := by
  unfold DataFrame.ofMatrix at h
  split at h
  · injection h with h
    subst h
    unfold DataFrame.columns
    dsimp
    rw [List.map_map]
    show List.map Prod.snd names.enum = names
    exact List.enum_map_snd names
  · simp at h

/-! ### The claims about the adapter's methods -/

/-- C10: `return_values` is the identity on its dataframe argument: for every
dataframe and collaborator it returns the input dataframe itself, unchanged,
with no columns added, removed, or modified. -/
theorem return_values_id (df : DataFrame) (dk : Kitchen) :
    return_values df dk = df :=
  rfl

/-- C4: whenever the regressor constructor call succeeds (no duplicate
keyword), the configuration it receives has file writing disabled, verbosity
interval 100, early stopping after 400 rounds, and exactly the user-supplied
`model_training_parameters` passed through; and `fit` is precisely the
library fit of that regressor on the weighted train pool with the weighted
test pool as the evaluation set. -/
theorem fit_config (ctx : Ctx E V Model) (ad : Adapter V) (dd : DataDict)
    (cfg : RegressorConfig V)
    (h : mkRegressorKwargs ad.model_training_parameters = Except.ok cfg) :
    cfg.allow_writing_files = false ∧ cfg.verbose = 100 ∧
      cfg.early_stopping_rounds = 400 ∧
      cfg.extra = ad.model_training_parameters ∧
      fit ctx ad dd =
        ctx.lib.fit cfg ⟨dd.train_features, dd.train_labels, dd.train_weights⟩
          ⟨dd.test_features, dd.test_labels, dd.test_weights⟩ := by
  unfold mkRegressorKwargs at h
  cases hf : ad.model_training_parameters.find?
      (fun kv => fixedKwargNames.contains kv.1) with
  | some kv =>
      rw [hf] at h
      simp at h
  | none =>
      rw [hf] at h
      dsimp only at h
      injection h with h
      subst h
      refine ⟨rfl, rfl, rfl, rfl, ?_⟩
      unfold fit mkRegressorKwargs
      rw [hf]

/-- Witness for C4 at a concrete run: the regressor keyword set is accepted
and `fit` returns the library's model handle. -/
theorem fit_config_witness :
    (⟨false, 100, 400, [("iterations", 100)]⟩ : RegressorConfig ℚ).verbose = 100 ∧
      fit ctxW adW ddW = Except.ok 7 := by
  have h := fit_config ctxW adW ddW ⟨false, 100, 400, [("iterations", (100 : ℚ))]⟩ rfl
  exact ⟨h.2.1, h.2.2.2.2.trans rfl⟩

/-- C9: if `model_training_parameters` repeats one of the three fixed
keywords, the constructor call raises `TypeError` (duplicate keyword
argument) instead of overriding the fixed value, so `fit` fails with that
error. -/
theorem fit_duplicate_kwarg (ctx : Ctx E V Model) (ad : Adapter V) (dd : DataDict)
    (h : ad.model_training_parameters.any
      (fun kv => fixedKwargNames.contains kv.1) = true) :
    ∃ key, key ∈ fixedKwargNames ∧
      (∃ v, (key, v) ∈ ad.model_training_parameters) ∧
      fit ctx ad dd = Except.error (ctx.typeError key) := by
  cases hf : ad.model_training_parameters.find?
      (fun kv => fixedKwargNames.contains kv.1) with
  | none =>
      rw [List.find?_eq_none] at hf
      rw [List.any_eq_true] at h
      obtain ⟨kv, hmem, hp⟩ := h
      exact absurd hp (hf kv hmem)
  | some kv =>
      have hp := List.find?_some hf
      have hmem := List.mem_of_find?_eq_some hf
      refine ⟨kv.1, ?_, ⟨kv.2, ?_⟩, ?_⟩
      · simpa using hp
      · exact hmem
      · unfold fit mkRegressorKwargs
        rw [hf]

/-- Witness for C9: a user configuration containing `verbose` makes `fit`
fail with the duplicate-keyword `TypeError` naming `verbose`. -/
theorem fit_duplicate_kwarg_witness :
    fit ctxW ⟨10, [("verbose", (0 : ℚ))]⟩ ddW = Except.error "verbose" := by
  obtain ⟨key, hk, ⟨v, hv⟩, hfit⟩ :=
    fit_duplicate_kwarg ctxW ⟨10, [("verbose", (0 : ℚ))]⟩ ddW rfl
  rw [List.mem_singleton] at hv
  have hkey : key = "verbose" := congrArg Prod.fst hv
  rw [hkey] at hfit
  exact hfit

/-- C8: `fit` is deterministic and depends only on the hyperparameters and
the data dictionary — two adapters that agree on
`model_training_parameters` (whatever else differs, e.g. the configured
period) produce the same fit outcome on equal data dictionaries, hence
models with identical predictions on any held-out sample.  (The regression
library itself is modelled as a function, which is the spec's assumption
that it is deterministic under a fixed seed.) -/
theorem fit_deterministic (ctx : Ctx E V Model) (ad1 ad2 : Adapter V)
    (dd1 dd2 : DataDict) (sample : DataFrame)
    (hmtp : ad1.model_training_parameters = ad2.model_training_parameters)
    (hdd : dd1 = dd2) :
    fit ctx ad1 dd1 = fit ctx ad2 dd2 ∧
      ∀ m1 m2, fit ctx ad1 dd1 = Except.ok m1 →
        fit ctx ad2 dd2 = Except.ok m2 →
        ctx.lib.predict m1 sample = ctx.lib.predict m2 sample := by
  subst hdd
  have hfit : fit ctx ad1 dd1 = fit ctx ad2 dd1 := by
    unfold fit
    rw [hmtp]
  refine ⟨hfit, ?_⟩
  intro m1 m2 h1 h2
  rw [hfit] at h1
  rw [h1] at h2
  injection h2 with h2
  rw [h2]

/-- Witness for C8: two adapters with different periods but the same
hyperparameters fit identically. -/
theorem fit_deterministic_witness :
    fit ctxW ⟨5, [("iterations", (100 : ℚ))]⟩ ddW =
      fit ctxW ⟨7, [("iterations", (100 : ℚ))]⟩ ddW ∧
      ctxW.lib.predict 7 dfW = ctxW.lib.predict 7 dfW := by
  have h := fit_deterministic ctxW ⟨5, [("iterations", (100 : ℚ))]⟩
    ⟨7, [("iterations", (100 : ℚ))]⟩ ddW ddW dfW rfl rfl
  exact ⟨h.1, h.2 7 7 rfl rfl⟩

/-- C3: whenever `predict` returns, the columns of the returned prediction
dataframe are exactly the collaborator's `label_list` (read from the kitchen
state at return time), in the same order, for any input dataframe of any
number of rows. -/
theorem predict_columns_match_label_list (ctx : Ctx E V Model) (model : Model)
    (k : Kitchen) (df : DataFrame) (first : Bool) (tr : List Event)
    (pdf : DataFrame) (dp : List ℤ) (k' : Kitchen) (df' : DataFrame)
    (h : predict ctx model k df first = (tr, Except.ok (pdf, dp, k', df'))) :
    pdf.columns = k'.label_list := by
  obtain ⟨k1, df1, k2, df2, fd, ld, k3, fd2, k5, preds, pdf0,
    hd, hf, hn, hc, hp, hm, htr, hr⟩ :=
    predict_ok_inv ctx model k df first tr (pdf, dp, k', df') h
  have hpdf : pdf = denormLoop k5 pdf0 := congrArg (fun x => x.1) hr
  have hk' : k' = k5 := congrArg (fun x => x.2.2.1) hr
  rw [hpdf, hk', denormLoop_columns, columns_ofMatrix preds k5.label_list pdf0 hm]

/-- Witness for C3 at a concrete successful run of `predict`. -/
theorem predict_columns_match_label_list_witness :
    (⟨[("s", [denorm (1 / 2) 0 1])]⟩ : DataFrame).columns =
      (Kitchen.setPredictionFeatures kW dfW).label_list :=
  predict_columns_match_label_list ctxW 7 kW dfW false
    [Event.find_features, Event.filter_features false,
      Event.normalize_data_from_metadata, Event.data_cleaning_predict,
      Event.model_predict]
    ⟨[("s", [denorm (1 / 2) 0 1])]⟩ [1, 0, 1]
    (Kitchen.setPredictionFeatures kW dfW) dfW rfl

/-- C5: whenever `train` returns normally, the delegated operations were
invoked in exactly the order: `filter_features` (with the training filter
enabled), `make_train_test_datasets`, `fit_labels`, `normalize_data`, the
`data_cleaning_train` hook, and finally `fit` on the resulting data
dictionary; and the returned value is the model handle `fit` returned. -/
theorem train_sequence (ctx : Ctx E V Model) (ad : Adapter V) (k : Kitchen)
    (df : DataFrame) (pair : String) (tr : List Event) (m : Model)
    (k' : Kitchen) (df' : DataFrame)
    (h : train ctx ad k df pair = (tr, Except.ok (m, k', df'))) :
    tr = [Event.filter_features true, Event.make_train_test_datasets,
      Event.fit_labels, Event.normalize_data, Event.data_cleaning_train,
      Event.fit_model] ∧
    ∃ dd2, fit ctx ad dd2 = Except.ok m := by
  obtain ⟨k1, df1, ffd, lfd, k2, dd, k3, k4, dd2, k5, m2,
    h1, h2, h3, h4, h5, hm, htr, hr⟩ :=
    train_ok_inv ctx ad k df pair tr (m, k', df') h
  have hm2 : m = m2 := congrArg (fun x => x.1) hr
  refine ⟨htr, dd2, ?_⟩
  rw [hm2]
  exact hm

/-- Witness for C5 at a concrete successful run of `train`. -/
theorem train_sequence_witness :
    (train ctxW adW kW dfW "BTC").1 =
      [Event.filter_features true, Event.make_train_test_datasets,
        Event.fit_labels, Event.normalize_data, Event.data_cleaning_train,
        Event.fit_model] :=
  (train_sequence ctxW adW kW dfW "BTC" (train ctxW adW kW dfW "BTC").1
    7 kW dfW rfl).1

/-- C6: whenever `predict` returns, the do-predict array it returns is
exactly the collaborator's stored `do_predict` attribute (of the kitchen
state at return time) — the adapter does not modify it; and if the
collaborator's calls leave the dataframe they receive unchanged (the
preservation hypotheses), the input dataframe's state after `predict` is the
input itself: the adapter never mutates it. -/
theorem predict_frame_effects (ctx : Ctx E V Model) (model : Model)
    (k : Kitchen) (df : DataFrame) (first : Bool)
    (hfindp : ∀ a b c d, ctx.ops.find_features a b = Except.ok (c, d) → d = b)
    (hfilterp : ∀ a b fl ll tf c d e f,
      ctx.ops.filter_features a b fl ll tf = Except.ok (c, d, e, f) → d = b)
    (tr : List Event) (pdf : DataFrame) (dp : List ℤ) (k' : Kitchen)
    (df' : DataFrame)
    (h : predict ctx model k df first = (tr, Except.ok (pdf, dp, k', df'))) :
    dp = k'.do_predict ∧ df' = df := by
  obtain ⟨k1, df1, k2, df2, fd, ld, k3, fd2, k5, preds, pdf0,
    hd, hf, hn, hc, hp, hm, htr, hr⟩ :=
    predict_ok_inv ctx model k df first tr (pdf, dp, k', df') h
  have hdp : dp = k5.do_predict := congrArg (fun x => x.2.1) hr
  have hk' : k' = k5 := congrArg (fun x => x.2.2.1) hr
  have hdf' : df' = df2 := congrArg (fun x => x.2.2.2) hr
  have e1 : df1 = df := hfindp k df k1 df1 hd
  have e2 : df2 = df1 :=
    hfilterp k1 df1 k1.training_features_list none false k2 df2 fd ld hf
  constructor
  · rw [hdp, hk']
  · rw [hdf', e2, e1]

/-- Witness for C6 at a concrete successful run of `predict` with a
dataframe-preserving collaborator. -/
theorem predict_frame_effects_witness :
    ([1, 0, 1] : List ℤ) =
      (Kitchen.setPredictionFeatures kW dfW).do_predict ∧ dfW = dfW :=
  predict_frame_effects ctxW 7 kW dfW false
    (fun a b c d h => by
      have h2 := Except.ok.inj h
      exact (congrArg Prod.snd h2).symm)
    (fun a b fl ll tf c d e f h => by
      have h2 := Except.ok.inj h
      exact (congrArg (fun x => x.2.1) h2).symm)
    (predict ctxW 7 kW dfW false).1
    ⟨[("s", [denorm (1 / 2) 0 1])]⟩ [1, 0, 1]
    (Kitchen.setPredictionFeatures kW dfW) dfW rfl

/-- C7: every error raised by a delegated collaborator operation or by a
regression-library call, during `train` or during `predict`, propagates to
the caller unchanged — the adapter catches, retries and translates nothing
and adds no validation of its own.  One conjunct per delegated call site: if
all earlier delegated calls of the method succeeded and that call fails with
`e`, the method's result is exactly `Except.error e`. -/
theorem error_propagation (ctx : Ctx E V Model) (ad : Adapter V) (k : Kitchen)
    (df : DataFrame) (pair : String) (model : Model) (first : Bool) (e : E) :
    (ctx.ops.filter_features k df k.training_features_list
        (some k.label_list) true = Except.error e →
      (train ctx ad k df pair).2 = Except.error e) ∧
    (∀ k1 df1 ffd lfd,
      ctx.ops.filter_features k df k.training_features_list
        (some k.label_list) true = Except.ok (k1, df1, ffd, lfd) →
      ctx.ops.make_train_test_datasets k1 ffd lfd = Except.error e →
      (train ctx ad k df pair).2 = Except.error e) ∧
    (∀ k1 df1 ffd lfd k2 dd,
      ctx.ops.filter_features k df k.training_features_list
        (some k.label_list) true = Except.ok (k1, df1, ffd, lfd) →
      ctx.ops.make_train_test_datasets k1 ffd lfd = Except.ok (k2, dd) →
      ctx.ops.fit_labels k2 = Except.error e →
      (train ctx ad k df pair).2 = Except.error e) ∧
    (∀ k1 df1 ffd lfd k2 dd k3,
      ctx.ops.filter_features k df k.training_features_list
        (some k.label_list) true = Except.ok (k1, df1, ffd, lfd) →
      ctx.ops.make_train_test_datasets k1 ffd lfd = Except.ok (k2, dd) →
      ctx.ops.fit_labels k2 = Except.ok k3 →
      ctx.ops.normalize_data k3 dd = Except.error e →
      (train ctx ad k df pair).2 = Except.error e) ∧
    (∀ k1 df1 ffd lfd k2 dd k3 k4 dd2,
      ctx.ops.filter_features k df k.training_features_list
        (some k.label_list) true = Except.ok (k1, df1, ffd, lfd) →
      ctx.ops.make_train_test_datasets k1 ffd lfd = Except.ok (k2, dd) →
      ctx.ops.fit_labels k2 = Except.ok k3 →
      ctx.ops.normalize_data k3 dd = Except.ok (k4, dd2) →
      ctx.ops.data_cleaning_train k4 = Except.error e →
      (train ctx ad k df pair).2 = Except.error e) ∧
    (∀ k1 df1 ffd lfd k2 dd k3 k4 dd2 k5 cfg,
      ctx.ops.filter_features k df k.training_features_list
        (some k.label_list) true = Except.ok (k1, df1, ffd, lfd) →
      ctx.ops.make_train_test_datasets k1 ffd lfd = Except.ok (k2, dd) →
      ctx.ops.fit_labels k2 = Except.ok k3 →
      ctx.ops.normalize_data k3 dd = Except.ok (k4, dd2) →
      ctx.ops.data_cleaning_train k4 = Except.ok k5 →
      mkRegressorKwargs ad.model_training_parameters = Except.ok cfg →
      ctx.lib.fit cfg ⟨dd2.train_features, dd2.train_labels, dd2.train_weights⟩
        ⟨dd2.test_features, dd2.test_labels, dd2.test_weights⟩ =
        Except.error e →
      (train ctx ad k df pair).2 = Except.error e) ∧
    (ctx.ops.find_features k df = Except.error e →
      (predict ctx model k df first).2 = Except.error e) ∧
    (∀ k1 df1,
      ctx.ops.find_features k df = Except.ok (k1, df1) →
      ctx.ops.filter_features k1 df1 k1.training_features_list none false =
        Except.error e →
      (predict ctx model k df first).2 = Except.error e) ∧
    (∀ k1 df1 k2 df2 fd ld,
      ctx.ops.find_features k df = Except.ok (k1, df1) →
      ctx.ops.filter_features k1 df1 k1.training_features_list none false =
        Except.ok (k2, df2, fd, ld) →
      ctx.ops.normalize_data_from_metadata k2 fd = Except.error e →
      (predict ctx model k df first).2 = Except.error e) ∧
    (∀ k1 df1 k2 df2 fd ld k3 fd2,
      ctx.ops.find_features k df = Except.ok (k1, df1) →
      ctx.ops.filter_features k1 df1 k1.training_features_list none false =
        Except.ok (k2, df2, fd, ld) →
      ctx.ops.normalize_data_from_metadata k2 fd = Except.ok (k3, fd2) →
      ctx.ops.data_cleaning_predict (k3.setPredictionFeatures fd2) fd2 =
        Except.error e →
      (predict ctx model k df first).2 = Except.error e) ∧
    (∀ k1 df1 k2 df2 fd ld k3 fd2 k5,
      ctx.ops.find_features k df = Except.ok (k1, df1) →
      ctx.ops.filter_features k1 df1 k1.training_features_list none false =
        Except.ok (k2, df2, fd, ld) →
      ctx.ops.normalize_data_from_metadata k2 fd = Except.ok (k3, fd2) →
      ctx.ops.data_cleaning_predict (k3.setPredictionFeatures fd2) fd2 =
        Except.ok k5 →
      ctx.lib.predict model k5.data_dictionary.prediction_features =
        Except.error e →
      (predict ctx model k df first).2 = Except.error e) := by
  refine ⟨?_, ?_, ?_, ?_, ?_, ?_, ?_, ?_, ?_, ?_, ?_⟩
  · intro h1
    rw [train_filter_err ctx ad k df pair e h1]
  · intro k1 df1 ffd lfd h1 h2
    rw [train_filter_ok ctx ad k df pair k1 df1 ffd lfd h1,
      trainAfterFilter_split_err ctx ad df1 k1 ffd lfd e h2]
    rfl
  · intro k1 df1 ffd lfd k2 dd h1 h2 h3
    rw [train_filter_ok ctx ad k df pair k1 df1 ffd lfd h1,
      trainAfterFilter_split_ok ctx ad df1 k1 ffd lfd k2 dd h2,
      trainAfterSplit_fitLabels_err ctx ad df1 k2 dd e h3]
    rfl
  · intro k1 df1 ffd lfd k2 dd k3 h1 h2 h3 h4
    rw [train_filter_ok ctx ad k df pair k1 df1 ffd lfd h1,
      trainAfterFilter_split_ok ctx ad df1 k1 ffd lfd k2 dd h2,
      trainAfterSplit_fitLabels_ok ctx ad df1 k2 dd k3 h3,
      trainAfterFitLabels_normalize_err ctx ad df1 k3 dd e h4]
    rfl
  · intro k1 df1 ffd lfd k2 dd k3 k4 dd2 h1 h2 h3 h4 h5
    rw [train_filter_ok ctx ad k df pair k1 df1 ffd lfd h1,
      trainAfterFilter_split_ok ctx ad df1 k1 ffd lfd k2 dd h2,
      trainAfterSplit_fitLabels_ok ctx ad df1 k2 dd k3 h3,
      trainAfterFitLabels_normalize_ok ctx ad df1 k3 dd k4 dd2 h4,
      trainAfterNormalize_clean_err ctx ad df1 k4 dd2 e h5]
    rfl
  · intro k1 df1 ffd lfd k2 dd k3 k4 dd2 k5 cfg h1 h2 h3 h4 h5 hcfg hlib
    have hfit : fit ctx ad dd2 = Except.error e := by
      unfold fit
      rw [hcfg]
      exact hlib
    rw [train_filter_ok ctx ad k df pair k1 df1 ffd lfd h1,
      trainAfterFilter_split_ok ctx ad df1 k1 ffd lfd k2 dd h2,
      trainAfterSplit_fitLabels_ok ctx ad df1 k2 dd k3 h3,
      trainAfterFitLabels_normalize_ok ctx ad df1 k3 dd k4 dd2 h4,
      trainAfterNormalize_clean_ok ctx ad df1 k4 dd2 k5 h5,
      trainFinal_fit_err ctx ad df1 k5 dd2 e hfit]
    rfl
  · intro h1
    rw [predict_find_err ctx model k df first e h1]
  · intro k1 df1 h1 h2
    rw [predict_find_ok ctx model k df first k1 df1 h1,
      predictAfterFind_filter_err ctx model k1 df1 e h2]
    rfl
  · intro k1 df1 k2 df2 fd ld h1 h2 h3
    rw [predict_find_ok ctx model k df first k1 df1 h1,
      predictAfterFind_filter_ok ctx model k1 df1 k2 df2 fd ld h2,
      predictAfterFilter_normMeta_err ctx model df2 k2 fd e h3]
    rfl
  · intro k1 df1 k2 df2 fd ld k3 fd2 h1 h2 h3 h4
    rw [predict_find_ok ctx model k df first k1 df1 h1,
      predictAfterFind_filter_ok ctx model k1 df1 k2 df2 fd ld h2,
      predictAfterFilter_normMeta_ok ctx model df2 k2 fd k3 fd2 h3,
      predictAfterNormalize_clean_err ctx model df2 k3 fd2 e h4]
    rfl
  · intro k1 df1 k2 df2 fd ld k3 fd2 k5 h1 h2 h3 h4 h5
    rw [predict_find_ok ctx model k df first k1 df1 h1,
      predictAfterFind_filter_ok ctx model k1 df1 k2 df2 fd ld h2,
      predictAfterFilter_normMeta_ok ctx model df2 k2 fd k3 fd2 h3,
      predictAfterNormalize_clean_ok ctx model df2 k3 fd2 k5 h4,
      predictInference_lib_err ctx model df2 k5 e h5]
    rfl

/-- Witness for C7: concrete collaborators failing at three different call
sites (training-time feature filtering, prediction-time feature discovery,
and the library fit) each surface their own error value unchanged. -/
theorem error_propagation_witness :
    (train ctxErrFilter adW kW dfW "BTC").2 = Except.error "boom" ∧
      (predict ctxErrFind 7 kW dfW false).2 = Except.error "nofind" ∧
      (train ctxErrFit adW kW dfW "BTC").2 = Except.error "fitfail" := by
  refine ⟨?_, ?_, ?_⟩
  · exact (error_propagation ctxErrFilter adW kW dfW "BTC" 7 false "boom").1 rfl
  · exact (error_propagation ctxErrFind adW kW dfW "BTC" 7 false
      "nofind").2.2.2.2.2.2.1 rfl
  · exact (error_propagation ctxErrFit adW kW dfW "BTC" 7 false
      "fitfail").2.2.2.2.2.1 kW dfW dfW emptyDF kW
      ⟨dfW, emptyDF, dfW, dfW, emptyDF, dfW, emptyDF⟩ kW kW
      ⟨dfW, emptyDF, dfW, dfW, emptyDF, dfW, emptyDF⟩ kW
      ⟨false, 100, 400, [("iterations", (100 : ℚ))]⟩
      rfl rfl rfl rfl rfl rfl rfl

end CatboostPredictionModel

end Freqai
